import Mathlib

/-!
Verification of the MCP protocol relay (`mcp_server.py`): a shallow embedding of
the JSON-RPC dispatcher (`MCPServer.handle_mcp_request`), the forwarding
algorithm (`MCPServer._forward_to_agent`), the readiness probe
(`MCPServer.handle_readiness` / `MCPServer._check_agent_service`) and the
server-sent-event stream (`MCPServer.handle_sse`), together with theorems
settling the specification claims about them.

Python values that can appear in a decoded JSON body are embedded as `Json`.
Python exceptions are embedded as `Except String`: a `.error` value is a raised
exception carrying `str(e)`; `try/except` blocks become `match` on the
`Except`.  The backend agent service is an oracle `Backend` mapping each
outbound HTTP call to its outcome (network failure, i.e. a raised exception, or
an HTTP reply).
-/

namespace MCPRelay

/-- A decoded JSON value (also standing for the corresponding Python value:
`None`, `bool`, `int`, `str`, `list`, `dict`).  Numbers are embedded as
integers; no claim involves fractional numbers. -/
inductive Json where
  | null
  | bool (b : Bool)
  | num (n : Int)
  | str (s : String)
  | arr (elems : List Json)
  | obj (members : List (String × Json))

/-- Python type name of a value, as it appears in CPython exception messages. -/
def pyTypeName : Json → String
  | .null => "NoneType"
  | .bool _ => "bool"
  | .num _ => "int"
  | .str _ => "str"
  | .arr _ => "list"
  | .obj _ => "dict"

/-- Python `==` between a decoded JSON value and a string literal: only a string
with the same contents compares equal (`mcp_server.py` compares `method` and
`tool_name` against string literals this way). -/
def Json.eqStr : Json → String → Bool
  | .str s, t => s = t
  | _, _ => false

/-- Python truthiness of a decoded JSON value (`if not tool_name:`). -/
def isTruthy : Json → Bool
  | .null => false
  | .bool b => b
  | .num n => n != 0
  | .str s => s != ""
  | .arr xs => !xs.isEmpty
  | .obj fs => !fs.isEmpty

/-- Key lookup on an object, `none` elsewhere (used to state properties about
response bodies). -/
def Json.field : Json → String → Option Json
  | .obj fs, k => fs.lookup k
  | _, _ => none

/-- Python substring test `pat in s`: some suffix of `s` starts with `pat`
(the empty pattern is contained in every string, as in Python). -/
def strContains (s pat : String) : Bool :=
  s.data.tails.any (fun t => pat.data.isPrefixOf t)

/-- Python membership `key in data` on a decoded JSON value: key containment for
a dict, element equality for a list, substring for a string, and a raised
`TypeError` for the non-iterable scalars. -/
def pyContains (v : Json) (key : String) : Except String Bool :=
  match v with
  | .obj fs => .ok (fs.any (fun p => p.1 == key))
  | .arr xs => .ok (xs.any (fun x => x.eqStr key))
  | .str s => .ok (strContains s key)
  | v => .error ("argument of type \x27" ++ pyTypeName v ++ "\x27 is not iterable")

/-- Python `data.get(key)` as used by the dispatcher: `dict.get` returns the
value or `None`-for-absent (here `Option`); on a non-dict it raises
`AttributeError`. -/
def pyGet (v : Json) (k : String) : Except String (Option Json) :=
  match v with
  | .obj fs => .ok (fs.lookup k)
  | v => .error ("\x27" ++ pyTypeName v ++ "\x27 object has no attribute \x27get\x27")

/-- Python `data.get(key, default)`. -/
def pyGetD (v : Json) (k : String) (d : Json) : Except String Json :=
  match v with
  | .obj fs => .ok ((fs.lookup k).getD d)
  | v => .error ("\x27" ++ pyTypeName v ++ "\x27 object has no attribute \x27get\x27")

mutual
/-- Python `repr` of a decoded JSON value (enough of it for f-string
interpolation of non-string values). -/
def pyRepr : Json → String
  | .null => "None"
  | .bool true => "True"
  | .bool false => "False"
  | .num n => toString n
  | .str s => "\x27" ++ s ++ "\x27"
  | .arr xs => "[" ++ pyReprArr xs ++ "]"
  | .obj fs => "\x7b" ++ pyReprObj fs ++ "\x7d"

def pyReprArr : List Json → String
  | [] => ""
  | [x] => pyRepr x
  | x :: xs => pyRepr x ++ ", " ++ pyReprArr xs

def pyReprObj : List (String × Json) → String
  | [] => ""
  | [(k, v)] => "\x27" ++ k ++ "\x27: " ++ pyRepr v
  | (k, v) :: fs => "\x27" ++ k ++ "\x27: " ++ pyRepr v ++ ", " ++ pyReprObj fs
end

/-- Python `str()` as applied by an f-string: a string interpolates as itself,
anything else as its `repr`-style rendering. -/
def pyStr : Json → String
  | .str s => s
  | v => pyRepr v

/-- JSON string escaping used by `json.dumps`. -/
def jsonEscape (s : String) : String :=
  s.foldl
    (fun acc c =>
      acc ++
        (if c = '"' then "\\\"" else if c = '\\' then "\\\\"
         else if c = '\n' then "\\n" else String.singleton c)) ""

/-- Padding of `indent` spaces. -/
def pad (indent : Nat) : String := String.mk (List.replicate indent ' ')

mutual
/-- Python `json.dumps(v, indent=2)` at nesting level `indent` (its exact text
is never inspected by a claim; it models the string the relay returns on the
`health_check` success path). -/
def jsonDumps (indent : Nat) (v : Json) : String :=
  match v with
  | .null => "null"
  | .bool true => "true"
  | .bool false => "false"
  | .num n => toString n
  | .str s => "\"" ++ jsonEscape s ++ "\""
  | .arr [] => "[]"
  | .arr (x :: xs) =>
      "[\n" ++ jsonDumpsArr (indent + 2) (x :: xs) ++ "\n" ++ pad indent ++ "]"
  | .obj [] => "\x7b\x7d"
  | .obj (f :: fs) =>
      "\x7b\n" ++ jsonDumpsObj (indent + 2) (f :: fs) ++ "\n" ++ pad indent ++ "\x7d"

def jsonDumpsArr (indent : Nat) : List Json → String
  | [] => ""
  | [x] => pad indent ++ jsonDumps indent x
  | x :: y :: xs => pad indent ++ jsonDumps indent x ++ ",\n" ++ jsonDumpsArr indent (y :: xs)

def jsonDumpsObj (indent : Nat) : List (String × Json) → String
  | [] => ""
  | [(k, v)] => pad indent ++ "\"" ++ jsonEscape k ++ "\": " ++ jsonDumps indent v
  | (k, v) :: f :: fs =>
      pad indent ++ "\"" ++ jsonEscape k ++ "\": " ++ jsonDumps indent v ++ ",\n" ++
        jsonDumpsObj indent (f :: fs)
end

/-! ### The backend agent service as an oracle

`_forward_to_agent` and `_check_agent_service` perform one outbound HTTP call
each (`session.get(url, timeout=…)` or `session.post(url, json=…, timeout=…)`).
A `Backend` maps each such call to its outcome: `netFail` is a raised exception
(timeout, connection refused, …) carrying `str(e)`; `reply` is an HTTP response
whose `.json` is the result of `await response.json()` (`.error` when the body
is not parseable JSON, which in Python raises) and whose `.text` is
`await response.text()`. -/

/-- One outbound HTTP call made by the relay. -/
inductive HttpCall where
  | get (url : String) (timeout : Nat)
  | post (url : String) (body : Json) (timeout : Nat)

/-- An HTTP response from the agent service. -/
structure NetResponse where
  status : Nat
  text : String
  json : Except String Json

/-- Outcome of an outbound call. -/
inductive BackendOutcome where
  | netFail (msg : String)
  | reply (r : NetResponse)

/-- The agent service, as observed through the relay's outbound calls. -/
def Backend := HttpCall → BackendOutcome

/-! ### The forwarding algorithm (`MCPServer._forward_to_agent`) -/

/-- The `endpoint_map` of `_forward_to_agent`: MCP tool name → agent service
endpoint. -/
def endpoint_map : List (String × String) :=
  [("sre_chat", "/chat"),
   ("analyze_logs", "/analyze-logs"),
   ("incident_response", "/incident-response"),
   ("monitoring_advice", "/monitoring-advice"),
   ("health_check", "/health")]

/-- Lookup `endpoint_map.get(tool_name)`: a Python dict lookup.  String keys match by
equality; the unhashable `list`/`dict` values raise `TypeError`; the other
scalars are hashable and match no string key. -/
def lookupEndpoint : Json → Except String (Option String)
  | .str s => .ok (endpoint_map.lookup s)
  | .arr _ => .error "unhashable type: \x27list\x27"
  | .obj _ => .error "unhashable type: \x27dict\x27"
  | _ => .ok none

/-- The request-body shaping of `_forward_to_agent` (the `if/elif` chain over
`tool_name` building `request_data`): each tool forwards exactly its own field,
absent arguments default to `""`; `none` is the final unreachable `else`
branch. `arguments.get(…)` raises on a non-dict `arguments`. -/
def request_data (tool_name arguments : Json) : Except String (Option Json) :=
  if tool_name.eqStr "sre_chat" then do
    let m ← pyGetD arguments "message" (.str "")
    return some (.obj [("message", m)])
  else if tool_name.eqStr "analyze_logs" then do
    let v ← pyGetD arguments "logs" (.str "")
    return some (.obj [("logs", v)])
  else if tool_name.eqStr "incident_response" then do
    let v ← pyGetD arguments "incident" (.str "")
    return some (.obj [("incident", v)])
  else if tool_name.eqStr "monitoring_advice" then do
    let v ← pyGetD arguments "system" (.str "")
    return some (.obj [("system", v)])
  else if tool_name.eqStr "health_check" then
    return some (.obj [])
  else
    return none

/-- The `try` block of `_forward_to_agent`: endpoint lookup, request shaping,
the outbound call (GET with timeout 10 for `health_check`, POST with timeout 30
otherwise) and response handling.  A `.error` is an exception escaping the
`try` block. -/
def forwardTry (backend : Backend) (agent_service_url : String)
    (tool_name arguments : Json) : Except String Json := do
  let endpointO ← lookupEndpoint tool_name
  match endpointO with
  | none => return .str ("❌ Unknown tool: " ++ pyStr tool_name)
  | some endpoint => do
    let rdO ← request_data tool_name arguments
    match rdO with
    | none => return .str ("❌ Unknown tool: " ++ pyStr tool_name)
    | some rd => do
      let url := agent_service_url ++ endpoint
      if tool_name.eqStr "health_check" then
        match backend (.get url 10) with
        | .netFail msg => .error msg
        | .reply r =>
          if r.status = 200 then do
            let d ← r.json
            return .str (jsonDumps 0 d)
          else
            return .str ("Error: HTTP " ++ toString r.status)
      else
        match backend (.post url rd 30) with
        | .netFail msg => .error msg
        | .reply r =>
          if r.status = 200 then do
            let d ← r.json
            if tool_name.eqStr "sre_chat" then
              pyGetD d "response" (.str "No response")
            else if tool_name.eqStr "analyze_logs" then
              pyGetD d "analysis" (.str "No analysis")
            else if tool_name.eqStr "incident_response" then
              pyGetD d "response" (.str "No response")
            else if tool_name.eqStr "monitoring_advice" then
              pyGetD d "advice" (.str "No advice")
            else
              return .str (jsonDumps 0 d)
          else
            return .str ("Error: HTTP " ++ toString r.status ++ " - " ++ r.text)

/-- Embeds `MCPServer._forward_to_agent`: the `try` block wrapped in
`except Exception as e: return f"Error forwarding to agent service: {e}"`.
The result is still typed `Except` because the dispatcher calls it in a
position where an exception could propagate; the theorems show it never
does. -/
def forward_to_agent (backend : Backend) (agent_service_url : String)
    (tool_name arguments : Json) : Except String Json :=
  match forwardTry backend agent_service_url tool_name arguments with
  | .ok v => .ok v
  | .error e => .ok (.str ("Error forwarding to agent service: " ++ e))

/-! ### The JSON-RPC dispatcher (`MCPServer.handle_mcp_request`) -/

/-- An HTTP response produced by an `aiohttp` handler:
`web.json_response(body, status=…)` (status defaults to 200). -/
structure HttpResponse where
  status : Nat
  body : Json

/-- The `initialize` result body (fixed handshake, original `id`). -/
def initializeBody (request_id : Json) : Json :=
  .obj [("jsonrpc", .str "2.0"),
        ("id", request_id),
        ("result", .obj
          [("protocolVersion", .str "2024-11-05"),
           ("capabilities", .obj [("tools", .obj [])]),
           ("serverInfo", .obj
             [("name", .str "sre-agent-mcp-server"),
              ("version", .str "1.0.0")])])]

/-- One tool descriptor of the `tools/list` catalog. -/
def toolDescriptor (name description field fieldDescription : String) : Json :=
  .obj [("name", .str name),
        ("description", .str description),
        ("inputSchema", .obj
          [("type", .str "object"),
           ("properties", .obj
             [(field, .obj
               [("type", .str "string"),
                ("description", .str fieldDescription)])]),
           ("required", .arr [.str field])])]

/-- The fixed `tools` catalog of the `tools/list` branch. -/
def toolsCatalog : List Json :=
  [toolDescriptor "sre_chat" "General SRE chat and consultation"
     "message" "Your SRE question or request",
   toolDescriptor "analyze_logs" "Analyze logs for SRE insights"
     "logs" "Log data to analyze",
   toolDescriptor "incident_response" "Get incident response guidance"
     "incident" "Incident description",
   toolDescriptor "monitoring_advice" "Get monitoring and alerting advice"
     "system" "System description",
   .obj [("name", .str "health_check"),
         ("description", .str "Check the health status"),
         ("inputSchema", .obj
           [("type", .str "object"),
            ("properties", .obj [])])]]

/-- The `tools/list` result body. -/
def toolsListBody (request_id : Json) : Json :=
  .obj [("jsonrpc", .str "2.0"),
        ("id", request_id),
        ("result", .obj [("tools", .arr toolsCatalog)])]

/-- An id-bearing JSON-RPC error body (`-32602` and `-32601` responses). -/
def rpcErrBody (request_id : Json) (code : Int) (message : String) : Json :=
  .obj [("jsonrpc", .str "2.0"),
        ("id", request_id),
        ("error", .obj [("code", .num code), ("message", .str message)])]

/-- The `tools/call` success body: the forwarded result as text content. -/
def callResultBody (request_id result : Json) : Json :=
  .obj [("jsonrpc", .str "2.0"),
        ("id", request_id),
        ("result", .obj
          [("content", .arr
            [.obj [("type", .str "text"), ("text", result)]])])]

/-- The id-less parse-error body of the dispatcher's final `else`. -/
def parseErrBody : Json :=
  .obj [("jsonrpc", .str "2.0"),
        ("error", .obj [("code", .num (-32700)), ("message", .str "Parse error")])]

/-- The id-less internal-error body built by the dispatcher's
`except Exception` handler. -/
def internalErrBody (message : String) : Json :=
  .obj [("jsonrpc", .str "2.0"),
        ("error", .obj [("code", .num (-32603)), ("message", .str message)])]

/-- The `try` block of `handle_mcp_request`, given the already-decoded body
`data` and the forwarding function `fwd` (`self._forward_to_agent`).  A
`.error` is an exception escaping the `try` block (`request.json()` failures
are handled one level up, in `handle_mcp_request`).  Mirrors the source: the
notification test `'method' in data and 'id' not in data`, the request test
`'method' in data and 'id' in data` (with Python's short-circuit evaluation),
and the method dispatch. -/
def dispatchTry (fwd : Json → Json → Except String Json) (data : Json) :
    Except String HttpResponse := do
  let hasMethod ← pyContains data "method"
  if hasMethod then do
    let hasId ← pyContains data "id"
    if !hasId then do
      let methodO ← pyGet data "method"
      if (methodO.getD .null).eqStr "notifications/initialized" then
        return ⟨200, .obj []⟩
      else
        return ⟨200, .obj []⟩
    else do
      let methodO ← pyGet data "method"
      let method := methodO.getD .null
      let params ← pyGetD data "params" (.obj [])
      let idO ← pyGet data "id"
      let request_id := idO.getD .null
      if method.eqStr "initialize" then
        return ⟨200, initializeBody request_id⟩
      else if method.eqStr "tools/list" then
        return ⟨200, toolsListBody request_id⟩
      else if method.eqStr "tools/call" then do
        let tool_nameO ← pyGet params "name"
        let tool_name := tool_nameO.getD .null
        let arguments ← pyGetD params "arguments" (.obj [])
        if !isTruthy tool_name then
          return ⟨200, rpcErrBody request_id (-32602) "Tool name is required"⟩
        else do
          let result ← fwd tool_name arguments
          return ⟨200, callResultBody request_id result⟩
      else
        return ⟨200, rpcErrBody request_id (-32601) ("Unknown method: " ++ pyStr method)⟩
  else
    return ⟨400, parseErrBody⟩

/-- Embeds `MCPServer.handle_mcp_request`: `data = await request.json()` (a `.error`
input is a body that is not valid JSON, raising `json.JSONDecodeError`),
then the classification`/`dispatch `try` block, the whole wrapped in
`except Exception as e: … status=500` building the id-less `-32603` body. -/
def handle_mcp_request (fwd : Json → Json → Except String Json)
    (body : Except String Json) : HttpResponse :=
  match body >>= dispatchTry fwd with
  | .ok r => r
  | .error e => ⟨500, internalErrBody e⟩

/-! ### Readiness (`MCPServer._check_agent_service`, `MCPServer.handle_readiness`) -/

/-- Embeds `MCPServer._check_agent_service`: GET the health endpoint with
timeout 5; HTTP 200 with parseable JSON → `connected` embedding the health
payload; non-200 → `error`; raised exception (network failure, or the
`response.json()` of an unparseable 200 body) → `disconnected`. -/
def check_agent_service (backend : Backend) (agent_service_url : String) : Json :=
  match backend (.get (agent_service_url ++ "/health") 5) with
  | .netFail msg =>
      .obj [("status", .str "disconnected"),
            ("url", .str agent_service_url),
            ("error", .str msg)]
  | .reply r =>
      if r.status = 200 then
        match r.json with
        | .ok d =>
            .obj [("status", .str "connected"),
                  ("url", .str agent_service_url),
                  ("health", d)]
        | .error e =>
            .obj [("status", .str "disconnected"),
                  ("url", .str agent_service_url),
                  ("error", .str e)]
      else
        .obj [("status", .str "error"),
              ("url", .str agent_service_url),
              ("error", .str ("HTTP " ++ toString r.status))]

/-- The readiness condition `agent_status.get("status") != "connected"`
(negated): the probe result's `status` field equals the string `"connected"`. -/
def agentConnected (agent_status : Json) : Bool :=
  ((agent_status.field "status").getD .null).eqStr "connected"

/-- Embeds `MCPServer.handle_readiness`: probe the agent service; not `connected` →
HTTP 503 `not_ready` embedding the probe result; otherwise HTTP 200 `ready`
embedding the probe result (`now` stands for `datetime.now().isoformat()`). -/
def handle_readiness (backend : Backend) (agent_service_url now : String) :
    HttpResponse :=
  let agent_status := check_agent_service backend agent_service_url
  if agentConnected agent_status then
    ⟨200, .obj [("status", .str "ready"),
                ("service", .str "sre-agent-mcp-server"),
                ("timestamp", .str now),
                ("agent_service_status", agent_status),
                ("mcp_endpoints", .arr
                  [.str "/mcp", .str "/health", .str "/ready", .str "/sse"]),
                ("deployment", .str "thin-mcp-server")]⟩
  else
    ⟨503, .obj [("status", .str "not_ready"),
                ("reason", .str "Agent service not available"),
                ("agent_status", agent_status)]⟩

/-! ### The event stream (`MCPServer.handle_sse`) -/

/-- One server-sent event as written by `handle_sse`. -/
inductive StreamEvent where
  | connected (timestamp : String)
  | heartbeat (count : Nat) (timestamp : String)

/-- The bounded event trace of an `/sse` connection with `maxHeartbeats`
heartbeats: one `connected` event, then `for i in range(maxHeartbeats)`
heartbeat events numbered by `i`.  `ts k` is the `datetime.now().isoformat()`
of the `k`-th write. -/
def sseTrace (maxHeartbeats : Nat) (ts : Nat → String) : List StreamEvent :=
  .connected (ts 0) :: (List.range maxHeartbeats).map (fun i => .heartbeat i (ts (i + 1)))

/-- Embeds `MCPServer.handle_sse` of `mcp_server.py`: `for i in range(100)`. -/
def handle_sse_events (ts : Nat → String) : List StreamEvent := sseTrace 100 ts

/-- Embeds `SimpleMCPServer.handle_sse` of `mcp_simple_server.py`: `for i in range(10)`
(its heartbeats carry no timestamp; the counter behaviour is identical). -/
def simple_sse_events (ts : Nat → String) : List StreamEvent := sseTrace 10 ts

/-- The heartbeat counters of a trace, in emission order. -/
def heartbeatCounts : List StreamEvent → List Nat
  | [] => []
  | .connected _ :: rest => heartbeatCounts rest
  | .heartbeat c _ :: rest => c :: heartbeatCounts rest

/-! ### Fixed auxiliary inputs used by witnesses and counterexamples -/

/-- A forwarding function that is never consulted (used where the dispatcher
answers before forwarding). -/
def noFwd : Json → Json → Except String Json := fun _ _ => .ok .null

/-- A backend whose every call fails with a connection error. -/
def unreachableBackend : Backend := fun _ => .netFail "Cannot connect to host"

/-- A well-formed `tools/call` envelope with the given `id` value and `params`
fields. -/
def toolsCallBody (request_id : Json) (ps : List (String × Json)) : Json :=
  .obj [("jsonrpc", .str "2.0"),
        ("id", request_id),
        ("method", .str "tools/call"),
        ("params", .obj ps)]

/-- A backend that replies HTTP 500 with body text `"boom"` to every call. -/
def status500Backend : Backend := fun _ => .reply ⟨500, "boom", .ok .null⟩

/-- A backend that replies HTTP 200 with a parseable health payload to every
call. -/
def connectedBackend : Backend :=
  fun _ => .reply ⟨200, "", .ok (.obj [("status", .str "healthy")])⟩

/-! ### Helper lemmas -/

/-- Binding a succeeded `Except` computation runs the continuation. -/
theorem ok_bind {α β ε : Type} (a : α) (f : α → Except ε β) :
    (Except.ok a >>= f : Except ε β) = f a := rfl

/-- On a successfully decoded body the dispatcher answers with the `try`
block's response, or the id-less 500 response if the `try` block raises. -/
theorem handle_ok_eq (fwd : Json → Json → Except String Json) (data : Json) :
    handle_mcp_request fwd (.ok data) =
      match dispatchTry fwd data with
      | .ok r => r
      | .error e => ⟨500, internalErrBody e⟩ := rfl

/-- On a well-formed `tools/call` envelope the dispatcher reduces to the
name-truthiness check followed by forwarding. -/
theorem dispatch_toolsCall_eq (fwd : Json → Json → Except String Json)
    (request_id : Json) (ps : List (String × Json)) :
    dispatchTry fwd (toolsCallBody request_id ps) =
      (if !isTruthy ((ps.lookup "name").getD .null) then
        .ok ⟨200, rpcErrBody request_id (-32602) "Tool name is required"⟩
      else
        (fwd ((ps.lookup "name").getD .null) ((ps.lookup "arguments").getD (.obj []))).bind
          (fun result => .ok ⟨200, callResultBody request_id result⟩)) := rfl

/-- A tool name outside the registry short-circuits forwarding into the
unknown-tool sentinel string, whatever the backend and arguments. -/
theorem forward_unknown_eq (backend : Backend) (url s : String) (args : Json)
    (h : endpoint_map.lookup s = none) :
    forward_to_agent backend url (.str s) args =
      .ok (.str ("❌ Unknown tool: " ++ s)) := by
  have hl : lookupEndpoint (.str s) = .ok none := by
    rw [show lookupEndpoint (.str s) = .ok (endpoint_map.lookup s) from rfl, h]
  unfold forward_to_agent forwardTry
  rw [hl]
  rfl

/-- Forwarding `sre_chat` reduces to one POST of `{message}` to `/chat`. -/
theorem forwardTry_chat_eq (backend : Backend) (url : String)
    (args : List (String × Json)) :
    forwardTry backend url (.str "sre_chat") (.obj args) =
      (match backend (.post (url ++ "/chat")
          (.obj [("message", (args.lookup "message").getD (.str ""))]) 30) with
       | .netFail msg => .error msg
       | .reply r =>
         if r.status = 200 then r.json >>= fun d => pyGetD d "response" (.str "No response")
         else .ok (.str ("Error: HTTP " ++ toString r.status ++ " - " ++ r.text))) := rfl

/-- Forwarding `analyze_logs` reduces to one POST of `{logs}` to
`/analyze-logs`. -/
theorem forwardTry_logs_eq (backend : Backend) (url : String)
    (args : List (String × Json)) :
    forwardTry backend url (.str "analyze_logs") (.obj args) =
      (match backend (.post (url ++ "/analyze-logs")
          (.obj [("logs", (args.lookup "logs").getD (.str ""))]) 30) with
       | .netFail msg => .error msg
       | .reply r =>
         if r.status = 200 then r.json >>= fun d => pyGetD d "analysis" (.str "No analysis")
         else .ok (.str ("Error: HTTP " ++ toString r.status ++ " - " ++ r.text))) := rfl

/-- Forwarding `incident_response` reduces to one POST of `{incident}` to
`/incident-response`. -/
theorem forwardTry_incident_eq (backend : Backend) (url : String)
    (args : List (String × Json)) :
    forwardTry backend url (.str "incident_response") (.obj args) =
      (match backend (.post (url ++ "/incident-response")
          (.obj [("incident", (args.lookup "incident").getD (.str ""))]) 30) with
       | .netFail msg => .error msg
       | .reply r =>
         if r.status = 200 then r.json >>= fun d => pyGetD d "response" (.str "No response")
         else .ok (.str ("Error: HTTP " ++ toString r.status ++ " - " ++ r.text))) := rfl

/-- Forwarding `monitoring_advice` reduces to one POST of `{system}` to
`/monitoring-advice`. -/
theorem forwardTry_advice_eq (backend : Backend) (url : String)
    (args : List (String × Json)) :
    forwardTry backend url (.str "monitoring_advice") (.obj args) =
      (match backend (.post (url ++ "/monitoring-advice")
          (.obj [("system", (args.lookup "system").getD (.str ""))]) 30) with
       | .netFail msg => .error msg
       | .reply r =>
         if r.status = 200 then r.json >>= fun d => pyGetD d "advice" (.str "No advice")
         else .ok (.str ("Error: HTTP " ++ toString r.status ++ " - " ++ r.text))) := rfl

/-- Forwarding `health_check` reduces to one GET of `/health`, ignoring the
arguments. -/
theorem forwardTry_health_eq (backend : Backend) (url : String) (arguments : Json) :
    forwardTry backend url (.str "health_check") arguments =
      (match backend (.get (url ++ "/health") 10) with
       | .netFail msg => .error msg
       | .reply r =>
         if r.status = 200 then (fun d => Json.str (jsonDumps 0 d)) <$> r.json
         else .ok (.str ("Error: HTTP " ++ toString r.status))) := rfl

/-- Heartbeat counters of a pure heartbeat trace are exactly the numbers the
trace was built from. -/
theorem heartbeatCounts_map (g : Nat → String) (l : List Nat) :
    heartbeatCounts (l.map fun i => .heartbeat i (g i)) = l := by
  induction l with
  | nil => rfl
  | cons a l ih => simp [heartbeatCounts, ih]

/-! ### The claims -/

/-- C1: for every `tools/call` request, a missing or empty `params.name` yields
the JSON-RPC error `-32602` "Tool name is required" carrying the original `id`,
while a present name that is registered in no tool yields a *successful*
JSON-RPC result whose text content matches "Unknown tool: <name>" (the text is
that sentinel behind a fixed prefix); an unknown tool name is never an
RPC-level error. -/
theorem claim_C1 :
    ∀ (fwd : Json → Json → Except String Json) (request_id : Json)
      (ps : List (String × Json)),
      ((ps.lookup "name" = none ∨ ps.lookup "name" = some (.str "")) →
        handle_mcp_request fwd (.ok (toolsCallBody request_id ps)) =
          ⟨200, rpcErrBody request_id (-32602) "Tool name is required"⟩)
      ∧ (∀ (backend : Backend) (url s : String),
          ps.lookup "name" = some (.str s) → s ≠ "" → endpoint_map.lookup s = none →
          handle_mcp_request (forward_to_agent backend url)
              (.ok (toolsCallBody request_id ps)) =
            ⟨200, callResultBody request_id (.str ("❌ Unknown tool: " ++ s))⟩
          ∧ ∃ t, "❌ Unknown tool: " ++ s = t ++ ("Unknown tool: " ++ s)) := by
  intro fwd request_id ps
  constructor
  · intro h
    rcases h with h | h <;> rw [handle_ok_eq, dispatch_toolsCall_eq, h] <;> rfl
  · intro backend url s hname hs hep
    constructor
    · rw [handle_ok_eq, dispatch_toolsCall_eq, hname]
      simp only [Option.getD_some]
      have ht : isTruthy (Json.str s) = true := by simp [isTruthy, hs]
      rw [ht, forward_unknown_eq backend url s _ hep]
      rfl
    · exact ⟨"❌ ", by rw [← String.append_assoc]; rfl⟩

/-- C1 witness: the two branches at concrete inputs. -/
theorem claim_C1_witness :
    handle_mcp_request noFwd (.ok (toolsCallBody (.num 1) [])) =
      ⟨200, rpcErrBody (.num 1) (-32602) "Tool name is required"⟩
    ∧ handle_mcp_request (forward_to_agent unreachableBackend "http://sre-agent-service:8080")
        (.ok (toolsCallBody (.num 2) [("name", .str "bogus")])) =
      ⟨200, callResultBody (.num 2) (.str "❌ Unknown tool: bogus")⟩ :=
  ⟨(claim_C1 noFwd (.num 1) []).1 (Or.inl rfl),
   ((claim_C1 (forward_to_agent unreachableBackend "http://sre-agent-service:8080")
        (.num 2) [("name", .str "bogus")]).2 unreachableBackend
        "http://sre-agent-service:8080" "bogus" rfl (by decide) rfl).1⟩

/-- C2 counterexample: a body that is not valid JSON makes `request.json()`
raise, which the dispatcher's generic handler turns into HTTP 500 with code
`-32603` — not the claimed HTTP 400 with `-32700`; likewise a valid JSON body
on which the membership test raises (a bare number). -/
theorem claim_C2_counterexample :
    handle_mcp_request noFwd (.error "Expecting value: line 1 column 1 (char 0)") =
      ⟨500, internalErrBody "Expecting value: line 1 column 1 (char 0)"⟩
    ∧ (handle_mcp_request noFwd (.error "Expecting value: line 1 column 1 (char 0)")).status ≠ 400
    ∧ handle_mcp_request noFwd (.ok (.num 5)) =
      ⟨500, internalErrBody "argument of type \x27int\x27 is not iterable"⟩ :=
  ⟨rfl, by decide, rfl⟩

/-- C2 as amended: a valid JSON *object* body lacking a `method` key gets
HTTP 400 with the id-less `-32700` "Parse error" object; a body that is not
valid JSON instead lands in the generic exception handler, HTTP 500 with
`-32603` (also id-less). -/
theorem claim_C2 :
    (∀ (fwd : Json → Json → Except String Json) (fs : List (String × Json)),
      fs.any (fun p => p.1 == "method") = false →
      handle_mcp_request fwd (.ok (.obj fs)) = ⟨400, parseErrBody⟩)
    ∧ (∀ (fwd : Json → Json → Except String Json) (e : String),
      handle_mcp_request fwd (.error e) = ⟨500, internalErrBody e⟩) := by
  constructor
  · intro fwd fs h
    have e1 : pyContains (.obj fs) "method" = .ok false := by
      rw [show pyContains (.obj fs) "method" = .ok (fs.any fun p => p.1 == "method") from rfl, h]
    rw [handle_ok_eq]
    unfold dispatchTry
    rw [e1]
    rfl
  · intro fwd e
    rfl

/-- C2 witness: both amended branches at concrete inputs. -/
theorem claim_C2_witness :
    handle_mcp_request noFwd (.ok (.obj [("hello", .num 3)])) = ⟨400, parseErrBody⟩
    ∧ handle_mcp_request noFwd (.error "boom") = ⟨500, internalErrBody "boom"⟩ :=
  ⟨claim_C2.1 noFwd [("hello", .num 3)] rfl, claim_C2.2 noFwd "boom"⟩

/-- C3: every envelope object with a `method` key and no `id` key is a
notification: the dispatcher answers HTTP 200 with the empty object, whatever
the method value (recognized or not), so no id-bearing response and no error
object is ever produced for a notification. -/
theorem claim_C3 :
    ∀ (fwd : Json → Json → Except String Json) (fs : List (String × Json)),
      fs.any (fun p => p.1 == "method") = true →
      fs.any (fun p => p.1 == "id") = false →
      handle_mcp_request fwd (.ok (.obj fs)) = ⟨200, .obj []⟩ := by
  intro fwd fs h1 h2
  have e1 : pyContains (.obj fs) "method" = .ok true := by
    rw [show pyContains (.obj fs) "method" = .ok (fs.any fun p => p.1 == "method") from rfl, h1]
  have e2 : pyContains (.obj fs) "id" = .ok false := by
    rw [show pyContains (.obj fs) "id" = .ok (fs.any fun p => p.1 == "id") from rfl, h2]
  rw [handle_ok_eq]
  unfold dispatchTry
  rw [e1]
  simp only [ok_bind]
  rw [e2]
  simp only [ok_bind, ite_self]
  rfl

/-- C3 witness: an unrecognized notification method still gets `{}`. -/
theorem claim_C3_witness :
    handle_mcp_request noFwd (.ok (.obj [("method", .str "totally/unrecognized")])) =
      ⟨200, .obj []⟩ :=
  claim_C3 noFwd [("method", .str "totally/unrecognized")] rfl rfl

/-- C4: the forwarding algorithm never raises — for every tool name, every
argument value and every backend behaviour (network failure, non-200 reply,
unparseable reply body), `_forward_to_agent` returns a value to its caller
instead of propagating an exception. -/
theorem claim_C4 :
    ∀ (backend : Backend) (url : String) (tool_name arguments : Json),
      ∃ v, forward_to_agent backend url tool_name arguments = .ok v := by
  intro backend url tool_name arguments
  cases h : forwardTry backend url tool_name arguments with
  | ok v => exact ⟨v, by unfold forward_to_agent; rw [h]⟩
  | error e => exact ⟨_, by unfold forward_to_agent; rw [h]⟩

/-- C5: for every registered tool and every argument mapping, the outbound
request body holds exactly the field that tool expects (`sre_chat` →
`{message}`, `analyze_logs` → `{logs}`, `incident_response` → `{incident}`,
`monitoring_advice` → `{system}`, `health_check` → `{}`); extra arguments are
dropped and a missing expected argument becomes the empty string. -/
theorem claim_C5 :
    ∀ args : List (String × Json),
      request_data (.str "sre_chat") (.obj args) =
        .ok (some (.obj [("message", (args.lookup "message").getD (.str ""))]))
      ∧ request_data (.str "analyze_logs") (.obj args) =
        .ok (some (.obj [("logs", (args.lookup "logs").getD (.str ""))]))
      ∧ request_data (.str "incident_response") (.obj args) =
        .ok (some (.obj [("incident", (args.lookup "incident").getD (.str ""))]))
      ∧ request_data (.str "monitoring_advice") (.obj args) =
        .ok (some (.obj [("system", (args.lookup "system").getD (.str ""))]))
      ∧ request_data (.str "health_check") (.obj args) = .ok (some (.obj [])) :=
  fun _ => ⟨rfl, rfl, rfl, rfl, rfl⟩

/-- C6 counterexample: a `health_check` invocation against a backend replying
HTTP 500 with body "boom" returns "Error: HTTP 500" — the status code alone;
the response body is not embedded, contradicting the claim for this tool. -/
theorem claim_C6_counterexample :
    forward_to_agent status500Backend "http://sre-agent-service:8080"
        (.str "health_check") (.obj []) = .ok (.str "Error: HTTP 500")
    ∧ strContains "Error: HTTP 500" "boom" = false :=
  ⟨rfl, rfl⟩

/-- C6 as amended: on a non-200 backend status the four POST-forwarded tools
return "Error: HTTP <status> - <body>" embedding both the status code and the
response body, while `health_check` (the GET tool) returns
"Error: HTTP <status>" embedding only the status code — in both cases without
throwing. -/
theorem claim_C6 :
    (∀ (backend : Backend) (url : String) (args : List (String × Json)) (r : NetResponse),
      backend (.post (url ++ "/chat")
          (.obj [("message", (args.lookup "message").getD (.str ""))]) 30) = .reply r →
      r.status ≠ 200 →
      forward_to_agent backend url (.str "sre_chat") (.obj args) =
        .ok (.str ("Error: HTTP " ++ toString r.status ++ " - " ++ r.text)))
    ∧ (∀ (backend : Backend) (url : String) (args : List (String × Json)) (r : NetResponse),
      backend (.post (url ++ "/analyze-logs")
          (.obj [("logs", (args.lookup "logs").getD (.str ""))]) 30) = .reply r →
      r.status ≠ 200 →
      forward_to_agent backend url (.str "analyze_logs") (.obj args) =
        .ok (.str ("Error: HTTP " ++ toString r.status ++ " - " ++ r.text)))
    ∧ (∀ (backend : Backend) (url : String) (args : List (String × Json)) (r : NetResponse),
      backend (.post (url ++ "/incident-response")
          (.obj [("incident", (args.lookup "incident").getD (.str ""))]) 30) = .reply r →
      r.status ≠ 200 →
      forward_to_agent backend url (.str "incident_response") (.obj args) =
        .ok (.str ("Error: HTTP " ++ toString r.status ++ " - " ++ r.text)))
    ∧ (∀ (backend : Backend) (url : String) (args : List (String × Json)) (r : NetResponse),
      backend (.post (url ++ "/monitoring-advice")
          (.obj [("system", (args.lookup "system").getD (.str ""))]) 30) = .reply r →
      r.status ≠ 200 →
      forward_to_agent backend url (.str "monitoring_advice") (.obj args) =
        .ok (.str ("Error: HTTP " ++ toString r.status ++ " - " ++ r.text)))
    ∧ (∀ (backend : Backend) (url : String) (arguments : Json) (r : NetResponse),
      backend (.get (url ++ "/health") 10) = .reply r →
      r.status ≠ 200 →
      forward_to_agent backend url (.str "health_check") arguments =
        .ok (.str ("Error: HTTP " ++ toString r.status))) := by
  refine ⟨?_, ?_, ?_, ?_, ?_⟩
  · intro backend url args r hcall hst
    unfold forward_to_agent
    rw [forwardTry_chat_eq, hcall]
    dsimp only
    rw [if_neg hst]
  · intro backend url args r hcall hst
    unfold forward_to_agent
    rw [forwardTry_logs_eq, hcall]
    dsimp only
    rw [if_neg hst]
  · intro backend url args r hcall hst
    unfold forward_to_agent
    rw [forwardTry_incident_eq, hcall]
    dsimp only
    rw [if_neg hst]
  · intro backend url args r hcall hst
    unfold forward_to_agent
    rw [forwardTry_advice_eq, hcall]
    dsimp only
    rw [if_neg hst]
  · intro backend url arguments r hcall hst
    unfold forward_to_agent
    rw [forwardTry_health_eq, hcall]
    dsimp only
    rw [if_neg hst]

/-- C6 witness: a POST tool against the 500-replying backend embeds both
status and body. -/
theorem claim_C6_witness :
    forward_to_agent status500Backend "http://sre-agent-service:8080"
        (.str "sre_chat") (.obj []) = .ok (.str "Error: HTTP 500 - boom") :=
  claim_C6.1 status500Backend "http://sre-agent-service:8080" []
    ⟨500, "boom", .ok .null⟩ rfl (by decide)

/-- C7 counterexample: a `tools/call` request whose `id` (`1`) parses fine but
whose `params` is not an object makes `params.get("name")` raise after parsing;
the dispatcher's `-32603` response omits the parsed `id`, contradicting the
claim that the id is preserved whenever it was parsed. -/
theorem claim_C7_counterexample :
    handle_mcp_request (forward_to_agent unreachableBackend "http://sre-agent-service:8080")
        (.ok (.obj [("jsonrpc", .str "2.0"), ("id", .num 1),
                    ("method", .str "tools/call"), ("params", .num 5)])) =
      ⟨500, internalErrBody "\x27int\x27 object has no attribute \x27get\x27"⟩
    ∧ (internalErrBody "\x27int\x27 object has no attribute \x27get\x27").field "id" = none :=
  ⟨rfl, rfl⟩

/-- C7 as amended: every uncaught failure while handling a request is caught at
the dispatcher boundary and converted to the JSON-RPC error
`{code: -32603, message: <detail>}` with HTTP 500, and that error response
never carries an `id` — even when the envelope's `id` had been parsed. -/
theorem claim_C7 :
    ∀ (fwd : Json → Json → Except String Json) (body : Except String Json) (e : String),
      (body >>= dispatchTry fwd) = .error e →
      handle_mcp_request fwd body = ⟨500, internalErrBody e⟩
      ∧ (internalErrBody e).field "id" = none := by
  intro fwd body e h
  refine ⟨?_, rfl⟩
  unfold handle_mcp_request
  rw [h]

/-- C7 witness: a failure before parsing at a concrete input. -/
theorem claim_C7_witness :
    handle_mcp_request noFwd (.error "boom") = ⟨500, internalErrBody "boom"⟩
    ∧ (internalErrBody "boom").field "id" = none :=
  claim_C7 noFwd (.error "boom") "boom" rfl

/-- C8: the readiness probe classifies the backend `connected` exactly when the
`/health` GET returns HTTP 200 with a parseable JSON body; when not
`connected` the readiness endpoint answers `not_ready` with HTTP 503, and
otherwise `ready` with HTTP 200 embedding the backend's own probe payload. -/
theorem claim_C8 :
    ∀ (backend : Backend) (url now : String),
      (agentConnected (check_agent_service backend url) = true ↔
        ∃ r : NetResponse, backend (.get (url ++ "/health") 5) = .reply r ∧
          r.status = 200 ∧ ∃ d, r.json = .ok d)
      ∧ (agentConnected (check_agent_service backend url) = false →
          (handle_readiness backend url now).status = 503
          ∧ (handle_readiness backend url now).body.field "status" = some (.str "not_ready"))
      ∧ (agentConnected (check_agent_service backend url) = true →
          (handle_readiness backend url now).status = 200
          ∧ (handle_readiness backend url now).body.field "status" = some (.str "ready")
          ∧ (handle_readiness backend url now).body.field "agent_service_status" =
              some (check_agent_service backend url)) := by
  intro backend url now
  refine ⟨?_, ?_, ?_⟩
  · unfold check_agent_service
    cases hc : backend (.get (url ++ "/health") 5) with
    | netFail msg =>
        dsimp only
        rw [show agentConnected (Json.obj [("status", Json.str "disconnected"),
          ("url", Json.str url), ("error", Json.str msg)]) = false from rfl]
        constructor
        · intro h; exact Bool.noConfusion h
        · rintro ⟨r, hr, -⟩
          exact BackendOutcome.noConfusion hr
    | reply r =>
        dsimp only
        by_cases hst : r.status = 200
        · rw [if_pos hst]
          cases hj : r.json with
          | ok d =>
              dsimp only
              rw [show agentConnected (Json.obj [("status", Json.str "connected"),
                ("url", Json.str url), ("health", d)]) = true from rfl]
              exact ⟨fun _ => ⟨r, rfl, hst, d, hj⟩, fun _ => rfl⟩
          | error e =>
              dsimp only
              rw [show agentConnected (Json.obj [("status", Json.str "disconnected"),
                ("url", Json.str url), ("error", Json.str e)]) = false from rfl]
              constructor
              · intro h; exact Bool.noConfusion h
              · rintro ⟨r2, hr2, -, d, hj2⟩
                injection hr2 with h2
                rw [← h2] at hj2
                rw [hj] at hj2
                exact Except.noConfusion hj2
        · rw [if_neg hst]
          rw [show agentConnected (Json.obj [("status", Json.str "error"),
            ("url", Json.str url), ("error", Json.str ("HTTP " ++ toString r.status))]) =
            false from rfl]
          constructor
          · intro h; exact Bool.noConfusion h
          · rintro ⟨r2, hr2, hst2, -⟩
            injection hr2 with h2
            rw [← h2] at hst2
            exact absurd hst2 hst
  · intro h
    have e : handle_readiness backend url now =
        ⟨503, .obj [("status", .str "not_ready"),
                    ("reason", .str "Agent service not available"),
                    ("agent_status", check_agent_service backend url)]⟩ := by
      unfold handle_readiness
      dsimp only
      rw [h]
      rfl
    rw [e]
    exact ⟨rfl, rfl⟩
  · intro h
    have e : handle_readiness backend url now =
        ⟨200, .obj [("status", .str "ready"),
                    ("service", .str "sre-agent-mcp-server"),
                    ("timestamp", .str now),
                    ("agent_service_status", check_agent_service backend url),
                    ("mcp_endpoints", .arr
                      [.str "/mcp", .str "/health", .str "/ready", .str "/sse"]),
                    ("deployment", .str "thin-mcp-server")]⟩ := by
      unfold handle_readiness
      dsimp only
      rw [h]
      rfl
    rw [e]
    exact ⟨rfl, rfl, rfl⟩

/-- C8 witness: the 503 branch against an unreachable backend and the 200
branch against a healthy backend. -/
theorem claim_C8_witness :
    (handle_readiness unreachableBackend "http://sre-agent-service:8080" "t").status = 503
    ∧ (handle_readiness unreachableBackend "http://sre-agent-service:8080" "t").body.field
        "status" = some (.str "not_ready")
    ∧ (handle_readiness connectedBackend "http://sre-agent-service:8080" "t").status = 200
    ∧ (handle_readiness connectedBackend "http://sre-agent-service:8080" "t").body.field
        "status" = some (.str "ready") :=
  ⟨((claim_C8 unreachableBackend "http://sre-agent-service:8080" "t").2.1 rfl).1,
   ((claim_C8 unreachableBackend "http://sre-agent-service:8080" "t").2.1 rfl).2,
   ((claim_C8 connectedBackend "http://sre-agent-service:8080" "t").2.2 rfl).1,
   ((claim_C8 connectedBackend "http://sre-agent-service:8080" "t").2.2 rfl).2.1⟩

/-- C9: on every event-stream connection the first emitted event is
`connected`; every following event is a `heartbeat` and their counters are
exactly `0, 1, 2, …` — strictly increasing and gap-free from 0 — and the
stream terminates after a fixed maximum number of heartbeats (100 in
`mcp_server.py`, 10 in `mcp_simple_server.py`) even if the client stays
connected. -/
theorem claim_C9 :
    ∀ ts : Nat → String,
      (handle_sse_events ts).head? = some (.connected (ts 0))
      ∧ (handle_sse_events ts).tail =
          (List.range 100).map (fun i => .heartbeat i (ts (i + 1)))
      ∧ heartbeatCounts (handle_sse_events ts) = List.range 100
      ∧ (handle_sse_events ts).length = 100 + 1
      ∧ (simple_sse_events ts).head? = some (.connected (ts 0))
      ∧ heartbeatCounts (simple_sse_events ts) = List.range 10
      ∧ (simple_sse_events ts).length = 10 + 1 := by
  intro ts
  refine ⟨rfl, rfl, ?_, ?_, rfl, ?_, ?_⟩
  · exact heartbeatCounts_map (fun i => ts (i + 1)) (List.range 100)
  · simp [handle_sse_events, sseTrace]
  · exact heartbeatCounts_map (fun i => ts (i + 1)) (List.range 10)
  · simp [simple_sse_events, sseTrace]

/-- C10: for every `tools/call` request whose `params.name` is present but
holds any falsy value (null, false, 0, the empty string — or any other value
Python treats as falsy), the dispatcher answers exactly as in the missing-name
case: JSON-RPC error `-32602` "Tool name is required" with the original id. -/
theorem claim_C10 :
    ∀ (fwd : Json → Json → Except String Json) (request_id v : Json)
      (ps : List (String × Json)),
      ps.lookup "name" = some v → isTruthy v = false →
      handle_mcp_request fwd (.ok (toolsCallBody request_id ps)) =
        ⟨200, rpcErrBody request_id (-32602) "Tool name is required"⟩ := by
  intro fwd request_id v ps hname hv
  rw [handle_ok_eq, dispatch_toolsCall_eq, hname]
  simp only [Option.getD_some, hv]
  rfl

/-- C10 witness: the four falsy name values of the claim. -/
theorem claim_C10_witness :
    handle_mcp_request noFwd (.ok (toolsCallBody (.num 3) [("name", .null)])) =
      ⟨200, rpcErrBody (.num 3) (-32602) "Tool name is required"⟩
    ∧ handle_mcp_request noFwd (.ok (toolsCallBody (.num 4) [("name", .bool false)])) =
      ⟨200, rpcErrBody (.num 4) (-32602) "Tool name is required"⟩
    ∧ handle_mcp_request noFwd (.ok (toolsCallBody (.num 5) [("name", .num 0)])) =
      ⟨200, rpcErrBody (.num 5) (-32602) "Tool name is required"⟩
    ∧ handle_mcp_request noFwd (.ok (toolsCallBody (.num 6) [("name", .str "")])) =
      ⟨200, rpcErrBody (.num 6) (-32602) "Tool name is required"⟩ :=
  ⟨claim_C10 noFwd (.num 3) .null [("name", .null)] rfl rfl,
   claim_C10 noFwd (.num 4) (.bool false) [("name", .bool false)] rfl rfl,
   claim_C10 noFwd (.num 5) (.num 0) [("name", .num 0)] rfl rfl,
   claim_C10 noFwd (.num 6) (.str "") [("name", .str "")] rfl rfl⟩

end MCPRelay
